import Mathlib

/-!
Verification development for the cupid-shopify inventory reconciliation
scripts.  The definitions below are shallow embeddings of the Python
functions in `src/`, keeping the source names where Lean allows:

* `compare-shopify-to-400-inventory/compare-shopify-to-400-inventory.py`:
  `load_whitelist`, `get_all_shopify_barcodes`, `get_inventory_barcodes`,
  `set_inventory_to_zero`, and the classification loop of `main`.
* `import-inventory-to-shopify.py`: `update_inventory_cache`,
  `find_inventory_item_id`, `update_inventory_level` (the 429 retry loop)
  and `update_inventory_from_csv` (modelled as its side-effect trace).
* `inventory-import-to-shopify2.py`: `update_inventory_level` (the
  read-then-adjust variant, named `update_inventory_level2` here).
* `export-invoicing-to-400-gql-rate-limit.py`: the throttling retry of
  `fetch_orders_from_graphql`.

Remote HTTP traffic is modelled by passing the sequence of responses
(pages, status codes) as explicit arguments.
-/

set_option maxHeartbeats 1000000

namespace CupidShopify

/-- One step of Python `str.strip`: drop leading whitespace characters. -/
def dropLeadingWS : List Char → List Char
  | [] => []
  | c :: cs => if c.isWhitespace then dropLeadingWS cs else c :: cs

/-- Model of Python `str.strip()`: remove leading and trailing whitespace. -/
def pstrip (s : String) : String :=
  ⟨(dropLeadingWS (dropLeadingWS s.data).reverse).reverse⟩

/-- A product variant as surfaced by the remote catalog API.  `barcode` is
`none` when the JSON field is null.  `id` stands for the opaque numeric
identifier the scripts cache (`variant['id']` in
`import-inventory-to-shopify.py`, `variant['inventory_item_id']` in
`update-inventory-cache.py`). -/
structure Variant where
  sku : String
  barcode : Option String
  inventoryQuantity : Int
  availableForSale : Bool
  id : Nat
deriving Repr, DecidableEq

/-- Python truthiness test `barcode and barcode.strip()` used by all three
scan loops: the barcode must be non-null, non-empty, and non-whitespace. -/
def barcode_ok : Option String → Bool
  | none => false
  | some s => decide (s ≠ "") && decide (pstrip s ≠ "")

/-- The record appended to `shopify_inventory` by
`get_all_shopify_barcodes` for each variant that passes the filter. -/
structure ScanItem where
  sku : String
  barcode : String
  inventoryQuantity : Int
deriving Repr, DecidableEq

/-- The selection test of `get_all_shopify_barcodes` (line 160 of the
compare script): `barcode and barcode.strip() and inventory_quantity > 0
and available_for_sale`. -/
def scan_select (v : Variant) : Bool :=
  barcode_ok v.barcode && decide (0 < v.inventoryQuantity) && v.availableForSale

/-- The `ScanItem` built from a selected variant. -/
def scan_item_of (v : Variant) : ScanItem :=
  ⟨v.sku, v.barcode.getD "", v.inventoryQuantity⟩

/-- One GraphQL response page of the compare script's catalog scan: either
a page of products (each product a list of variants) together with
`pageInfo.hasNextPage`, or an HTTP error status. -/
inductive ScanPage where
  | ok (products : List (List Variant)) (hasNext : Bool)
  | err (status : Nat)
deriving Repr, DecidableEq

/-- `get_all_shopify_barcodes` of the compare script, over the sequence of
page responses.  On a non-200 response the loop prints and `break`s,
returning the items accumulated so far; on `hasNextPage = false` it stops
normally. -/
def get_all_shopify_barcodes : List ScanPage → List ScanItem
  | [] => []
  | ScanPage.ok products hasNext :: rest =>
      (products.map (fun vs => (vs.filter scan_select).map scan_item_of)).flatten
        ++ (if hasNext then get_all_shopify_barcodes rest else [])
  | ScanPage.err _ :: _ => []

/-- `get_inventory_barcodes`: the set of stripped first-column values of
the authoritative CSV (rows given as their first field). -/
def get_inventory_barcodes (rows : List String) : List String :=
  rows.map pstrip

/-- `load_whitelist`: stripped, non-blank lines of the whitelist file. -/
def load_whitelist (lines : List String) : List String :=
  (lines.map pstrip).filter (fun s => decide (s ≠ ""))

/-- Result of the classification loop in the compare script's `main`
(lines 300..308): items to be zeroed and items ignored by the whitelist. -/
structure CompareRun where
  missing : List ScanItem
  ignored : List ScanItem
deriving Repr, DecidableEq

/-- The classification loop of `main`: an item absent from the file goes
to `ignored` when whitelisted and to `missing` otherwise; items present in
the file are dropped. -/
def classify_missing : List ScanItem → List String → List String → CompareRun
  | [], _, _ => ⟨[], []⟩
  | it :: rest, fileB, wl =>
      let r := classify_missing rest fileB wl
      if it.barcode ∈ fileB then r
      else if it.barcode ∈ wl then ⟨r.missing, it :: r.ignored⟩
      else ⟨it :: r.missing, r.ignored⟩

/-- A point mutation issued against the remote inventory API: either an
absolute set of the on-hand quantity of an inventory item, or an
adjustment by a delta (`inventory_levels/adjust.json`). -/
inductive Mutation where
  | setOnHand (inventoryItemId : String) (quantity : Int)
  | adjust (inventoryItemId : String) (delta : Int)
deriving Repr, DecidableEq

/-- `set_inventory_to_zero` of the compare script: it resolves the barcode
with `productVariants(first: 1, query: $barcode)` and, when a match
exists, issues one absolute set-to-zero for `edges[0]`'s inventory item.
`lookup` models the remote's full list of matching inventory item ids;
`first: 1` truncates it to one. -/
def set_inventory_to_zero (lookup : String → List String) (barcode : String) :
    List Mutation :=
  match (lookup barcode).take 1 with
  | [] => []
  | iid :: _ => [Mutation.setOnHand iid 0]

/-- The zeroing mutations issued by a full compare-mode run: `main` calls
`set_inventory_to_zero` for every item of `missing_inventory`. -/
def compare_zero_calls (pages : List ScanPage) (fileRows wlLines : List String)
    (lookup : String → List String) : List Mutation :=
  ((classify_missing (get_all_shopify_barcodes pages)
      (get_inventory_barcodes fileRows) (load_whitelist wlLines)).missing).flatMap
    (fun it => set_inventory_to_zero lookup it.barcode)

/-- Application of a point mutation to the remote inventory state (the
on-hand quantity per inventory item id). -/
def apply_mutation (st : String → Int) : Mutation → String → Int
  | Mutation.setOnHand iid q => fun j => if j = iid then q else st j
  | Mutation.adjust iid d => fun j => if j = iid then st j + d else st j

/-- The request issued by `update_inventory_level` of
`inventory-import-to-shopify2.py`: it first reads the current available
quantity of the item and then posts `inventory_levels/adjust.json` with
`available_adjustment = new_quantity - available_quantity`. -/
def update_inventory_level2_request (st : String → Int) (inventoryItemId : String)
    (newQuantity : Int) : Mutation :=
  Mutation.adjust inventoryItemId (newQuantity - st inventoryItemId)

/-- The effect of one `update_inventory_level` call of
`inventory-import-to-shopify2.py` on the remote state (transport assumed
to succeed). -/
def update_inventory_level2 (st : String → Int) (inventoryItemId : String)
    (newQuantity : Int) : String → Int :=
  apply_mutation st (update_inventory_level2_request st inventoryItemId newQuantity)

/-- First-match lookup in the JSON cache dictionary. -/
def cacheLookup : List (String × Nat) → String → Option Nat
  | [], _ => none
  | (k, v) :: rest, b => if k = b then some v else cacheLookup rest b

/-- Dictionary assignment `cache[barcode] = id`: replace the existing
binding or append a new one. -/
def cacheInsert : List (String × Nat) → String → Nat → List (String × Nat)
  | [], b, i => [(b, i)]
  | (k, v) :: rest, b, i =>
      if k = b then (k, i) :: rest else (k, v) :: cacheInsert rest b i

/-- The per-variant body of `update_inventory_cache`: `if barcode and
barcode.strip() and (barcode not in inventory_cache or
inventory_cache[barcode] != variant['id']): cache[barcode] = id;
has_changes = True`.  The state is the in-memory cache plus the
`has_changes` flag. -/
def merge_variant (st : List (String × Nat) × Bool) (v : Variant) :
    List (String × Nat) × Bool :=
  if barcode_ok v.barcode &&
      decide (cacheLookup st.1 (v.barcode.getD "") ≠ some v.id) then
    (cacheInsert st.1 (v.barcode.getD "") v.id, true)
  else st

/-- One REST response page of the cache-refresh scan of
`import-inventory-to-shopify.py`: a page of products with a
"has another page" flag (derived from the `Link` header), or an HTTP
error status. -/
inductive CachePage where
  | ok (products : List (List Variant)) (hasNext : Bool)
  | err (status : Nat)
deriving Repr, DecidableEq

/-- The pagination loop of `update_inventory_cache`
(`import-inventory-to-shopify.py` lines 112..142): merge each fetched
page; stop when there is no next page; on an HTTP error print and stop,
except for status 429 which retries (consumes the next response). -/
def run_cache_scan : List (String × Nat) → Bool → List CachePage →
    List (String × Nat) × Bool
  | cache, changed, [] => (cache, changed)
  | cache, changed, CachePage.ok products hasNext :: rest =>
      let st := products.foldl (fun acc vs => vs.foldl merge_variant acc)
        (cache, changed)
      if hasNext then run_cache_scan st.1 st.2 rest else st
  | cache, changed, CachePage.err status :: rest =>
      if status = 429 then run_cache_scan cache changed rest
      else (cache, changed)

/-- A cache-scan page response that lets the pagination loop continue: a
successful page that announces another page. -/
def page_ok_next : CachePage → Bool
  | CachePage.ok _ true => true
  | _ => false

/-- `update_inventory_cache`: the content of the persisted cache file
after the run.  The merged cache is saved only when `has_changes`;
otherwise the file keeps its prior content. -/
def update_inventory_cache (initial : List (String × Nat))
    (pages : List CachePage) : List (String × Nat) :=
  let st := run_cache_scan initial false pages
  if st.2 then st.1 else initial

/-- `find_inventory_item_id` of `import-inventory-to-shopify.py`: a plain
cache lookup. -/
def find_inventory_item_id (cache : List (String × Nat)) (barcode : String) :
    Option Nat :=
  cacheLookup cache barcode

/-- Python truthiness of `find_inventory_item_id`'s result as used by
`if inventory_item_id:` — `None` and `0` are both falsy. -/
def truthy_id : Option Nat → Bool
  | none => false
  | some n => decide (n ≠ 0)

/-- The retry loop of `update_inventory_level` in
`import-inventory-to-shopify.py` (lines 174..192): post the mutation;
200 breaks with success, 429 sleeps and retries, any other status breaks
with failure.  `responses i` is the HTTP status of the i-th attempt;
`fuel` bounds the number of attempts we unfold, `none` meaning the loop
is still running after `fuel` attempts. -/
def update_inventory_level_loop (responses : Nat → Nat) :
    Nat → Nat → Option Bool
  | _, 0 => none
  | i, fuel + 1 =>
      if responses i = 200 then some true
      else if responses i = 429 then
        update_inventory_level_loop responses (i + 1) fuel
      else some false

/-- The retry loop terminates: some finite unfolding returns. -/
def update_inventory_level_terminates (responses : Nat → Nat) : Prop :=
  ∃ fuel, (update_inventory_level_loop responses 0 fuel).isSome = true

/-- The throttling retry of `fetch_orders_from_graphql` in
`export-invoicing-to-400-gql-rate-limit.py` (lines 176..179): on a
THROTTLED error it sleeps 60 seconds and calls itself again with the same
cursor.  `throttled i` says whether the i-th attempt is throttled. -/
def fetch_orders_retry (throttled : Nat → Bool) : Nat → Nat → Option Bool
  | _, 0 => none
  | i, fuel + 1 =>
      if throttled i then fetch_orders_retry throttled (i + 1) fuel
      else some true

/-- The recursive fetch terminates: some finite unfolding returns. -/
def fetch_orders_terminates (throttled : Nat → Bool) : Prop :=
  ∃ fuel, (fetch_orders_retry throttled 0 fuel).isSome = true

/-- An observable side effect of `update_inventory_from_csv`
(`import-inventory-to-shopify.py`), in program order. -/
inductive RunEvent where
  | mutate (barcode : String) (quantity : Int)
  | writeReport (lines : List String)
  | archiveInput
  | emailSent
deriving Repr, DecidableEq

/-- The barcodes appended to `missing_barcodes` by the row loop of
`update_inventory_from_csv`: rows whose `find_inventory_item_id` result
is falsy. -/
def import_missing_barcodes (cache : List (String × Nat))
    (records : List (String × Int)) : List String :=
  records.filterMap fun r =>
    if truthy_id (find_inventory_item_id cache r.1) then none else some r.1

/-- The mutation calls issued by the row loop of
`update_inventory_from_csv`, one per row with a truthy cache hit. -/
def import_mutation_events (cache : List (String × Nat))
    (records : List (String × Int)) : List RunEvent :=
  records.filterMap fun r =>
    if truthy_id (find_inventory_item_id cache r.1) then
      some (RunEvent.mutate r.1 r.2)
    else none

/-- The side-effect trace of `update_inventory_from_csv` on its
exception-free path: the per-row mutations, then the missing-barcode
report (written only when `missing_barcodes` is non-empty), then the
archive rename (`shutil.move`), then the notification email. -/
def update_inventory_from_csv (cache : List (String × Nat))
    (records : List (String × Int)) : List RunEvent :=
  let missing := import_missing_barcodes cache records
  import_mutation_events cache records
    ++ (if missing.isEmpty then [] else [RunEvent.writeReport missing])
    ++ [RunEvent.archiveInput, RunEvent.emailSent]

/-- The rows of the compare script's `missing_inventory-...csv`: a header
row followed by one row per missing item. -/
def missing_inventory_rows (missing : List ScanItem) : List (List String) :=
  ["SKU", "Barcode", "Original Inventory Quantity"] ::
    missing.map (fun it => [it.sku, it.barcode, toString it.inventoryQuantity])

/-- Whether an event is the missing-barcode report write. -/
def isReportEvent : RunEvent → Bool
  | RunEvent.writeReport _ => true
  | _ => false

/-- Whether an event is the archive rename of the consumed input file. -/
def isArchiveEvent : RunEvent → Bool
  | RunEvent.archiveInput => true
  | _ => false

/-- No report write occurs at or after the first archive rename. -/
def no_report_after_archive : List RunEvent → Bool
  | [] => true
  | e :: rest =>
      if isArchiveEvent e then rest.all (fun x => !isReportEvent x)
      else no_report_after_archive rest

/-- Characterisation of the `missing_inventory` list built by `main`. -/
theorem mem_missing_iff (scan : List ScanItem) (fileB wl : List String)
    (it : ScanItem) :
    it ∈ (classify_missing scan fileB wl).missing ↔
      it ∈ scan ∧ it.barcode ∉ fileB ∧ it.barcode ∉ wl := by
  induction scan with
  | nil => simp [classify_missing]
  | cons x rest ih =>
    by_cases hf : x.barcode ∈ fileB
    · simp only [classify_missing, if_pos hf, ih, List.mem_cons]
      constructor
      · rintro ⟨h1, h2, h3⟩
        exact ⟨Or.inr h1, h2, h3⟩
      · rintro ⟨h1 | h1, h2, h3⟩
        · exact absurd (h1 ▸ hf) h2
        · exact ⟨h1, h2, h3⟩
    · by_cases hw : x.barcode ∈ wl
      · simp only [classify_missing, if_neg hf, if_pos hw, ih, List.mem_cons]
        constructor
        · rintro ⟨h1, h2, h3⟩
          exact ⟨Or.inr h1, h2, h3⟩
        · rintro ⟨h1 | h1, h2, h3⟩
          · exact absurd (h1 ▸ hw) h3
          · exact ⟨h1, h2, h3⟩
      · simp only [classify_missing, if_neg hf, if_neg hw, List.mem_cons]
        constructor
        · rintro (h | h)
          · exact ⟨Or.inl h, h ▸ hf, h ▸ hw⟩
          · obtain ⟨h1, h2, h3⟩ := ih.mp h
            exact ⟨Or.inr h1, h2, h3⟩
        · rintro ⟨h1 | h1, h2, h3⟩
          · exact Or.inl h1
          · exact Or.inr (ih.mpr ⟨h1, h2, h3⟩)

/-- Characterisation of the `ignored_whitelist` list built by `main`. -/
theorem mem_ignored_iff (scan : List ScanItem) (fileB wl : List String)
    (it : ScanItem) :
    it ∈ (classify_missing scan fileB wl).ignored ↔
      it ∈ scan ∧ it.barcode ∉ fileB ∧ it.barcode ∈ wl := by
  induction scan with
  | nil => simp [classify_missing]
  | cons x rest ih =>
    by_cases hf : x.barcode ∈ fileB
    · simp only [classify_missing, if_pos hf, ih, List.mem_cons]
      constructor
      · rintro ⟨h1, h2, h3⟩
        exact ⟨Or.inr h1, h2, h3⟩
      · rintro ⟨h1 | h1, h2, h3⟩
        · exact absurd (h1 ▸ hf) h2
        · exact ⟨h1, h2, h3⟩
    · by_cases hw : x.barcode ∈ wl
      · simp only [classify_missing, if_neg hf, if_pos hw, List.mem_cons]
        constructor
        · rintro (h | h)
          · exact ⟨Or.inl h, h ▸ hf, h ▸ hw⟩
          · obtain ⟨h1, h2, h3⟩ := ih.mp h
            exact ⟨Or.inr h1, h2, h3⟩
        · rintro ⟨h1 | h1, h2, h3⟩
          · exact Or.inl h1
          · exact Or.inr (ih.mpr ⟨h1, h2, h3⟩)
      · simp only [classify_missing, if_neg hf, if_neg hw, ih, List.mem_cons]
        constructor
        · rintro ⟨h1, h2, h3⟩
          exact ⟨Or.inr h1, h2, h3⟩
        · rintro ⟨h1 | h1, h2, h3⟩
          · exact absurd h3 (h1 ▸ hw)
          · exact ⟨h1, h2, h3⟩

/-- C1: in compare mode, a whitelisted barcode is never selected for
zeroing — whatever the catalog pages (hence whatever its remote quantity
and availability) — and any scanned item with a whitelisted barcode that
is absent from the authoritative file is recorded in the ignored list. -/
theorem whitelisted_barcode_never_zeroed (pages : List ScanPage)
    (fileRows wlLines : List String) (b : String)
    (hb : b ∈ load_whitelist wlLines) :
    (∀ it ∈ (classify_missing (get_all_shopify_barcodes pages)
        (get_inventory_barcodes fileRows) (load_whitelist wlLines)).missing,
      it.barcode ≠ b) ∧
    (∀ it ∈ get_all_shopify_barcodes pages, it.barcode = b →
      it.barcode ∉ get_inventory_barcodes fileRows →
      it ∈ (classify_missing (get_all_shopify_barcodes pages)
        (get_inventory_barcodes fileRows) (load_whitelist wlLines)).ignored) := by
  constructor
  · intro it hit heq
    obtain ⟨-, -, h3⟩ := (mem_missing_iff _ _ _ _).mp hit
    exact h3 (heq ▸ hb)
  · intro it hit heq hfile
    exact (mem_ignored_iff _ _ _ _).mpr ⟨hit, hfile, heq ▸ hb⟩

/-- Witness for C1 at a concrete run: barcode "999" is whitelisted, the
scanned item carrying it is not zeroed and lands in the ignored list. -/
theorem whitelisted_barcode_never_zeroed_witness :
    (⟨"s", "999", 3⟩ : ScanItem) ∉
      (classify_missing
        (get_all_shopify_barcodes [ScanPage.ok [[⟨"s", some "999", 3, true, 1⟩]] false])
        (get_inventory_barcodes []) (load_whitelist ["999"])).missing ∧
    (⟨"s", "999", 3⟩ : ScanItem) ∈
      (classify_missing
        (get_all_shopify_barcodes [ScanPage.ok [[⟨"s", some "999", 3, true, 1⟩]] false])
        (get_inventory_barcodes []) (load_whitelist ["999"])).ignored := by
  obtain ⟨h1, h2⟩ := whitelisted_barcode_never_zeroed
    [ScanPage.ok [[⟨"s", some "999", 3, true, 1⟩]] false] [] ["999"] "999"
    (by decide)
  refine ⟨fun hmem => h1 _ hmem rfl, h2 ⟨"s", "999", 3⟩ (by decide) rfl (by decide)⟩

/-- C2 counterexample: a variant whose barcode is a single space has
positive quantity, is available for sale, and its barcode is absent from
the file and from the whitelist, yet the run issues no set-to-zero call
for it — the scan filter also requires a non-whitespace barcode, which
the claim omits. -/
theorem zero_selection_counterexample :
    0 < (⟨"sku1", some " ", 5, true, 11⟩ : Variant).inventoryQuantity ∧
    (⟨"sku1", some " ", 5, true, 11⟩ : Variant).availableForSale = true ∧
    " " ∉ get_inventory_barcodes [] ∧
    " " ∉ load_whitelist [] ∧
    compare_zero_calls [ScanPage.ok [[⟨"sku1", some " ", 5, true, 11⟩]] false]
      [] [] (fun _ => ["gid1"]) = [] := by
  refine ⟨by decide, rfl, by decide, by decide, by decide⟩

/-- C2 amended: over a fully scanned catalog, an item is selected for
zeroing exactly when it comes from a variant with a non-null, non-empty,
non-whitespace barcode, positive quantity and `availableForSale`, whose
barcode is absent from both the authoritative file and the whitelist. -/
theorem zero_selection_iff (vs : List Variant) (fileRows wlLines : List String)
    (it : ScanItem) :
    it ∈ (classify_missing (get_all_shopify_barcodes [ScanPage.ok [vs] false])
        (get_inventory_barcodes fileRows) (load_whitelist wlLines)).missing ↔
      (∃ v ∈ vs, barcode_ok v.barcode = true ∧ 0 < v.inventoryQuantity ∧
        v.availableForSale = true ∧ it = scan_item_of v) ∧
      it.barcode ∉ get_inventory_barcodes fileRows ∧
      it.barcode ∉ load_whitelist wlLines := by
  rw [mem_missing_iff]
  have hscan : get_all_shopify_barcodes [ScanPage.ok [vs] false]
      = (vs.filter scan_select).map scan_item_of := by
    simp [get_all_shopify_barcodes]
  rw [hscan]
  apply and_congr_left'
  constructor
  · intro h
    obtain ⟨v, hv, hvit⟩ := List.mem_map.mp h
    obtain ⟨hvs, hsel⟩ := List.mem_filter.mp hv
    have hsel' := hsel
    simp only [scan_select, Bool.and_eq_true, decide_eq_true_eq] at hsel'
    exact ⟨v, hvs, hsel'.1.1, hsel'.1.2, hsel'.2, hvit.symm⟩
  · rintro ⟨v, hvs, h1, h2, h3, h4⟩
    refine List.mem_map.mpr ⟨v, List.mem_filter.mpr ⟨hvs, ?_⟩, h4.symm⟩
    simp only [scan_select, Bool.and_eq_true, decide_eq_true_eq]
    exact ⟨⟨h1, h2⟩, h3⟩

/-- C3 counterexample: `update_inventory_level` of
`inventory-import-to-shopify2.py` issues an adjust-by-delta request whose
delta is computed from the current remote quantity — with target 5 it
posts delta 2 when the remote holds 3 and delta 5 when the remote holds
0 — refuting "every mutation sets an absolute quantity". -/
theorem adjust_by_delta_counterexample :
    update_inventory_level2_request (fun _ => 3) "item1" 5
        = Mutation.adjust "item1" 2 ∧
    update_inventory_level2_request (fun _ => 0) "item1" 5
        = Mutation.adjust "item1" 5 ∧
    update_inventory_level2_request (fun _ => 3) "item1" 5
        ≠ update_inventory_level2_request (fun _ => 0) "item1" 5 := by
  refine ⟨by decide, by decide, by decide⟩

/-- C3 amended: applying the same correction twice (sequentially) leaves
the remote quantity equal to applying it once, both for the compare
script's absolute set-to-zero and for the read-then-adjust
`update_inventory_level` of `inventory-import-to-shopify2.py` — but the
latter achieves this by recomputing a delta from the current remote
quantity, not by an absolute set. -/
theorem correction_sequentially_idempotent (st : String → Int)
    (iid : String) (q : Int) :
    update_inventory_level2 (update_inventory_level2 st iid q) iid q
        = update_inventory_level2 st iid q ∧
    apply_mutation (apply_mutation st (Mutation.setOnHand iid q))
        (Mutation.setOnHand iid q)
        = apply_mutation st (Mutation.setOnHand iid q) := by
  constructor
  · funext j
    simp only [update_inventory_level2, update_inventory_level2_request,
      apply_mutation]
    by_cases h : j = iid <;> simp [h]
  · funext j
    simp only [apply_mutation]
    by_cases h : j = iid <;> simp [h]

/-- If every attempt is throttled, the mutation retry loop never
returns, at any unfolding depth. -/
theorem uil_loop_all_throttled (responses : Nat → Nat)
    (hall : ∀ n, responses n = 429) :
    ∀ fuel i, update_inventory_level_loop responses i fuel = none := by
  intro fuel
  induction fuel with
  | zero => intro i; rfl
  | succ f ih =>
    intro i
    simp [update_inventory_level_loop, hall i, ih]

/-- If every attempt is throttled, the recursive order fetch never
returns, at any unfolding depth. -/
theorem fetch_retry_all_throttled (throttled : Nat → Bool)
    (hall : ∀ n, throttled n = true) :
    ∀ fuel i, fetch_orders_retry throttled i fuel = none := by
  intro fuel
  induction fuel with
  | zero => intro i; rfl
  | succ f ih =>
    intro i
    simp [fetch_orders_retry, hall i, ih]

/-- If some attempt within the unfolding depth is not throttled, the
mutation retry loop returns. -/
theorem uil_loop_returns (responses : Nat → Nat) :
    ∀ fuel i, (∃ k, k < fuel ∧ responses (i + k) ≠ 429) →
      (update_inventory_level_loop responses i fuel).isSome = true := by
  intro fuel
  induction fuel with
  | zero =>
    rintro i ⟨k, hk, -⟩
    omega
  | succ f ih =>
    rintro i ⟨k, hk, hne⟩
    by_cases h200 : responses i = 200
    · simp [update_inventory_level_loop, h200]
    · by_cases h429 : responses i = 429
      · simp only [update_inventory_level_loop, if_neg h200, if_pos h429]
        apply ih
        cases k with
        | zero =>
          simp only [Nat.add_zero] at hne
          exact absurd h429 hne
        | succ k' =>
          refine ⟨k', by omega, ?_⟩
          have : i + 1 + k' = i + (k' + 1) := by omega
          rw [this]
          exact hne
      · simp [update_inventory_level_loop, h200, h429]

/-- If some attempt within the unfolding depth is not throttled, the
recursive order fetch returns. -/
theorem fetch_retry_returns (throttled : Nat → Bool) :
    ∀ fuel i, (∃ k, k < fuel ∧ throttled (i + k) = false) →
      (fetch_orders_retry throttled i fuel).isSome = true := by
  intro fuel
  induction fuel with
  | zero =>
    rintro i ⟨k, hk, -⟩
    omega
  | succ f ih =>
    rintro i ⟨k, hk, hfalse⟩
    by_cases hthr : throttled i = true
    · simp only [fetch_orders_retry, if_pos hthr]
      apply ih
      cases k with
      | zero =>
        simp only [Nat.add_zero] at hfalse
        rw [hthr] at hfalse
        cases hfalse
      | succ k' =>
        refine ⟨k', by omega, ?_⟩
        have : i + 1 + k' = i + (k' + 1) := by omega
        rw [this]
        exact hfalse
    · simp [fetch_orders_retry, hthr]

/-- C4 counterexample: under an unbroken sequence of throttling
responses, neither the mutation retry loop of `update_inventory_level`
nor the recursive fetch of `fetch_orders_from_graphql` ever terminates —
there is no bounded attempt count after which the action is given up as a
transient failure. -/
theorem throttling_retry_counterexample :
    ¬ update_inventory_level_terminates (fun _ => 429) ∧
    ¬ fetch_orders_terminates (fun _ => true) := by
  constructor
  · rintro ⟨fuel, h⟩
    rw [uil_loop_all_throttled (fun _ => 429) (fun _ => rfl) fuel 0] at h
    simp at h
  · rintro ⟨fuel, h⟩
    rw [fetch_retry_all_throttled (fun _ => true) (fun _ => rfl) fuel 0] at h
    simp at h

/-- C4 amended: on throttling, both retry sites retry the same action
indefinitely (sleeping between attempts) with no attempt bound and no
transient-failure escalation; the retry process terminates precisely for
response sequences in which some attempt is answered without
throttling. -/
theorem throttling_retry_unbounded (responses : Nat → Nat)
    (throttled : Nat → Bool) :
    (update_inventory_level_terminates responses ↔ ∃ n, responses n ≠ 429) ∧
    (fetch_orders_terminates throttled ↔ ∃ n, throttled n = false) := by
  constructor
  · constructor
    · rintro ⟨fuel, h⟩
      by_contra hno
      push_neg at hno
      rw [uil_loop_all_throttled responses hno fuel 0] at h
      simp at h
    · rintro ⟨n, hn⟩
      exact ⟨n + 1, uil_loop_returns responses (n + 1) 0
        ⟨n, by omega, by simpa using hn⟩⟩
  · constructor
    · rintro ⟨fuel, h⟩
      by_contra hno
      push_neg at hno
      have hall : ∀ n, throttled n = true := by
        intro n
        cases h : throttled n
        · exact absurd h (hno n)
        · rfl
      rw [fetch_retry_all_throttled throttled hall fuel 0] at h
      simp at h
    · rintro ⟨n, hn⟩
      exact ⟨n + 1, fetch_retry_returns throttled (n + 1) 0
        ⟨n, by omega, by simpa using hn⟩⟩

/-- The cache pagination loop stops at the first page error other than
429 and behaves as if the response stream ended there. -/
theorem run_cache_scan_stops_at_err (s : Nat) (hs : s ≠ 429)
    (rest : List CachePage) :
    ∀ (pre : List CachePage) (c : List (String × Nat)) (ch : Bool),
      (∀ p ∈ pre, page_ok_next p = true) →
      run_cache_scan c ch (pre ++ CachePage.err s :: rest)
        = run_cache_scan c ch pre := by
  intro pre
  induction pre with
  | nil =>
    intro c ch _
    simp [run_cache_scan, hs]
  | cons p pre' ih =>
    intro c ch hok
    have hp : page_ok_next p = true := hok p (List.mem_cons_self p pre')
    match p, hp with
    | CachePage.ok products true, _ =>
      simp only [List.cons_append, run_cache_scan, if_pos rfl]
      exact ih _ _ (fun q hq => hok q (List.mem_cons_of_mem _ hq))

/-- C5 counterexample: the cache scan merges the first page, then hits an
HTTP 500 on the second page; the run persists the partially merged cache
(one new entry) instead of leaving the prior — empty — cache intact. -/
theorem cache_partial_persist_counterexample :
    update_inventory_cache []
        [CachePage.ok [[⟨"s", some "123", 0, true, 7⟩]] true,
         CachePage.err 500] = [("123", 7)] ∧
    update_inventory_cache []
        [CachePage.ok [[⟨"s", some "123", 0, true, 7⟩]] true,
         CachePage.err 500] ≠ [] := by
  refine ⟨by decide, by decide⟩

/-- C5 amended: a page error other than 429 stops the scan, and the run
then persists exactly what a scan of the pages fetched before the error
would persist — entries merged before the error are saved whenever any
entry changed, and only a scan aborted before any change leaves the prior
cache file untouched. -/
theorem cache_abort_persists_scanned_prefix (init : List (String × Nat))
    (pre : List CachePage) (s : Nat) (rest : List CachePage)
    (hok : ∀ p ∈ pre, page_ok_next p = true) (hs : s ≠ 429) :
    update_inventory_cache init (pre ++ CachePage.err s :: rest)
      = update_inventory_cache init pre := by
  unfold update_inventory_cache
  rw [run_cache_scan_stops_at_err s hs rest pre init false hok]

/-- Witness for C5 amended at a concrete run: one successfully fetched
page followed by an HTTP 500 persists the same cache as fetching the one
page alone. -/
theorem cache_abort_persists_scanned_prefix_witness :
    update_inventory_cache [("a", 1)]
        [CachePage.ok [[⟨"s", some "123", 0, true, 7⟩]] true,
         CachePage.err 500]
      = update_inventory_cache [("a", 1)]
        [CachePage.ok [[⟨"s", some "123", 0, true, 7⟩]] true] :=
  cache_abort_persists_scanned_prefix [("a", 1)]
    [CachePage.ok [[⟨"s", some "123", 0, true, 7⟩]] true] 500 []
    (by decide) (by decide)

/-- C6 counterexample: when two remote inventory item ids match the
barcode, `set_inventory_to_zero` issues a single set-to-zero for the
first id only — the query asks for `first: 1` and the code uses
`edges[0]` — so the second variant sharing the barcode is not updated. -/
theorem zeroing_fanout_counterexample :
    set_inventory_to_zero (fun _ => ["gidA", "gidB"]) "999"
        = [Mutation.setOnHand "gidA" 0] ∧
    Mutation.setOnHand "gidB" 0 ∉
      set_inventory_to_zero (fun _ => ["gidA", "gidB"]) "999" := by
  refine ⟨by decide, by decide⟩

/-- C6 amended: when at least one remote inventory item matches the
barcode, exactly one mutation is issued: an absolute set-to-zero of the
first matching identifier; the remaining matches receive nothing. -/
theorem zeroing_targets_first_match_only (lookup : String → List String)
    (b iid : String) (others : List String) (h : lookup b = iid :: others) :
    set_inventory_to_zero lookup b = [Mutation.setOnHand iid 0] := by
  unfold set_inventory_to_zero
  rw [h]
  rfl

/-- Witness for C6 amended: with three matching ids only the first is
zeroed. -/
theorem zeroing_targets_first_match_only_witness :
    set_inventory_to_zero (fun _ => ["id1", "id2", "id3"]) "777"
      = [Mutation.setOnHand "id1" 0] :=
  zeroing_targets_first_match_only (fun _ => ["id1", "id2", "id3"]) "777"
    "id1" ["id2", "id3"] rfl

/-- Length of the `missing_barcodes` list of
`update_inventory_from_csv`. -/
theorem import_missing_barcodes_length (cache : List (String × Nat))
    (records : List (String × Int)) :
    (import_missing_barcodes cache records).length
      = records.countP
          (fun r => !truthy_id (find_inventory_item_id cache r.1)) := by
  induction records with
  | nil => rfl
  | cons r rs ih =>
    by_cases h : truthy_id (find_inventory_item_id cache r.1) = true
    · simp [import_missing_barcodes, List.countP_cons, h] at ih ⊢
      exact ih
    · simp [import_missing_barcodes, List.countP_cons,
        Bool.eq_false_iff.mpr h] at ih ⊢
      exact ih

/-- Length of the `missing_inventory` list of the compare run. -/
theorem classify_missing_length (scan : List ScanItem)
    (fileB wl : List String) :
    (classify_missing scan fileB wl).missing.length
      = scan.countP (fun it =>
          !(decide (it.barcode ∈ fileB)) && !(decide (it.barcode ∈ wl))) := by
  induction scan with
  | nil => rfl
  | cons x rest ih =>
    by_cases hf : x.barcode ∈ fileB
    · simp [classify_missing, List.countP_cons, hf, ih]
    · by_cases hw : x.barcode ∈ wl
      · simp [classify_missing, List.countP_cons, hf, hw, ih]
      · simp [classify_missing, List.countP_cons, hf, hw, ih]

/-- C7: the missing-barcode report row counts.  In import mode the number
of report lines equals the number of authoritative rows whose barcode has
no (truthy) identifier-cache hit; in compare mode the number of data rows
(header excluded) equals the number of scanned items absent from the
authoritative file and not whitelisted. -/
theorem report_row_counts (cache : List (String × Nat))
    (records : List (String × Int)) (scan : List ScanItem)
    (fileB wl : List String) :
    (import_missing_barcodes cache records).length
        = records.countP
            (fun r => !truthy_id (find_inventory_item_id cache r.1)) ∧
    (missing_inventory_rows (classify_missing scan fileB wl).missing).length - 1
        = scan.countP (fun it =>
            !(decide (it.barcode ∈ fileB)) && !(decide (it.barcode ∈ wl))) := by
  refine ⟨import_missing_barcodes_length cache records, ?_⟩
  have hlen : (missing_inventory_rows (classify_missing scan fileB wl).missing).length
      = (classify_missing scan fileB wl).missing.length + 1 := by
    simp [missing_inventory_rows]
  rw [hlen, Nat.add_sub_cancel, classify_missing_length]

/-- C8 counterexample: with one successful page and then an HTTP 500, the
scan returns the partial item list as a normal result, and the run goes
on to issue a set-to-zero mutation computed from that partial data — the
error neither aborts the run nor prevents further side effects. -/
theorem scan_error_counterexample :
    get_all_shopify_barcodes
        [ScanPage.ok [[⟨"skuA", some "111", 4, true, 1⟩]] true,
         ScanPage.err 500] = [⟨"skuA", "111", 4⟩] ∧
    compare_zero_calls
        [ScanPage.ok [[⟨"skuA", some "111", 4, true, 1⟩]] true,
         ScanPage.err 500] [] [] (fun _ => ["gidX"])
      = [Mutation.setOnHand "gidX" 0] := by
  refine ⟨by decide, by decide⟩

/-- C8 amended: a page-level HTTP error merely stops the pagination loop;
the items gathered from the pages before the error are returned as if the
catalog ended there, and the run computes and applies its zeroing calls
from that partial scan exactly as it would for a complete scan of those
pages. -/
theorem scan_error_truncates (pre : List ScanPage) (s : Nat)
    (rest : List ScanPage) (fileRows wlLines : List String)
    (lookup : String → List String) :
    get_all_shopify_barcodes (pre ++ ScanPage.err s :: rest)
        = get_all_shopify_barcodes pre ∧
    compare_zero_calls (pre ++ ScanPage.err s :: rest) fileRows wlLines lookup
        = compare_zero_calls pre fileRows wlLines lookup := by
  have hscan : ∀ pre' : List ScanPage,
      get_all_shopify_barcodes (pre' ++ ScanPage.err s :: rest)
        = get_all_shopify_barcodes pre' := by
    intro pre'
    induction pre' with
    | nil => simp [get_all_shopify_barcodes]
    | cons p ps ih =>
      cases p with
      | ok products hasNext =>
        cases hasNext <;>
          simp [get_all_shopify_barcodes, ih]
      | err t => simp [get_all_shopify_barcodes]
  refine ⟨hscan pre, ?_⟩
  unfold compare_zero_calls
  rw [hscan pre]

/-- Prepending archive-free events does not affect
`no_report_after_archive`. -/
theorem no_report_after_archive_append (l tr : List RunEvent)
    (h : ∀ e ∈ l, isArchiveEvent e = false) :
    no_report_after_archive (l ++ tr) = no_report_after_archive tr := by
  induction l with
  | nil => rfl
  | cons e l' ih =>
    have he : isArchiveEvent e = false := h e (List.mem_cons_self e l')
    simp only [List.cons_append, no_report_after_archive, he]
    exact ih (fun x hx => h x (List.mem_cons_of_mem _ hx))

/-- Every event of the row loop is a mutation call. -/
theorem import_mutation_events_not_archive (cache : List (String × Nat))
    (records : List (String × Int)) :
    ∀ e ∈ import_mutation_events cache records, isArchiveEvent e = false := by
  intro e he
  obtain ⟨r, -, hr⟩ := List.mem_filterMap.mp he
  by_cases h : truthy_id (find_inventory_item_id cache r.1) = true
  · rw [if_pos h] at hr
    cases hr
    rfl
  · rw [if_neg h] at hr
    cases hr

/-- C9: on the exception-free path of `update_inventory_from_csv`, the
archive rename of the consumed input file occurs in the trace, and no
report write occurs at or after it — the missing-barcode report is always
finalized before the input file is archived. -/
theorem archive_follows_report (cache : List (String × Nat))
    (records : List (String × Int)) :
    no_report_after_archive (update_inventory_from_csv cache records) = true ∧
    RunEvent.archiveInput ∈ update_inventory_from_csv cache records := by
  constructor
  · unfold update_inventory_from_csv
    rw [List.append_assoc]
    rw [no_report_after_archive_append _ _
      (import_mutation_events_not_archive cache records)]
    by_cases h : (import_missing_barcodes cache records).isEmpty = true
    · rw [if_pos h]
      rfl
    · rw [if_neg h]
      rfl
  · unfold update_inventory_from_csv
    simp

/-- Inserting a different key leaves the lookup unchanged. -/
theorem cacheLookup_insert_ne (c : List (String × Nat)) (k b : String)
    (i : Nat) (h : k ≠ b) :
    cacheLookup (cacheInsert c k i) b = cacheLookup c b := by
  induction c with
  | nil => simp [cacheInsert, cacheLookup, fun hh => h hh]
  | cons kv rest ih =>
    by_cases hk : kv.1 = k
    · simp only [cacheInsert]
      rw [if_pos hk]
      simp only [cacheLookup]
      rw [if_neg (hk ▸ h), if_neg (hk ▸ h)]
    · simp only [cacheInsert]
      rw [if_neg hk]
      simp only [cacheLookup]
      by_cases hb : kv.1 = b
      · rw [if_pos hb, if_pos hb]
      · rw [if_neg hb, if_neg hb]
        exact ih

/-- A barcode passing the scripts' `barcode and barcode.strip()` test is
non-empty after stripping. -/
theorem barcode_ok_strip (ob : Option String) (h : barcode_ok ob = true) :
    pstrip (ob.getD "") ≠ "" := by
  cases ob with
  | none => cases h
  | some s =>
    simp only [barcode_ok, Bool.and_eq_true, decide_eq_true_eq] at h
    simpa using h.2

/-- `merge_variant` never touches a whitespace-only key. -/
theorem merge_variant_lookup_ws (st : List (String × Nat) × Bool)
    (v : Variant) (b : String) (hb : pstrip b = "") :
    cacheLookup (merge_variant st v).1 b = cacheLookup st.1 b := by
  unfold merge_variant
  by_cases h : (barcode_ok v.barcode &&
      decide (cacheLookup st.1 (v.barcode.getD "") ≠ some v.id)) = true
  · rw [if_pos h]
    simp only [Bool.and_eq_true] at h
    obtain ⟨hok, -⟩ := h
    have hne : v.barcode.getD "" ≠ b :=
      fun hgb => barcode_ok_strip v.barcode hok (hgb ▸ hb)
    exact cacheLookup_insert_ne st.1 _ b v.id hne
  · rw [if_neg h]

/-- Folding the variants of fetched pages never touches a
whitespace-only key. -/
theorem foldl_merge_lookup_ws (b : String) (hb : pstrip b = "")
    (vs : List Variant) :
    ∀ st : List (String × Nat) × Bool,
      cacheLookup (vs.foldl merge_variant st).1 b = cacheLookup st.1 b := by
  induction vs with
  | nil => intro st; rfl
  | cons v vs' ih =>
    intro st
    rw [List.foldl_cons, ih (merge_variant st v),
      merge_variant_lookup_ws st v b hb]

/-- Folding a whole page of products never touches a whitespace-only
key. -/
theorem foldl_products_lookup_ws (b : String) (hb : pstrip b = "")
    (products : List (List Variant)) :
    ∀ st : List (String × Nat) × Bool,
      cacheLookup
        (products.foldl (fun acc vs => vs.foldl merge_variant acc) st).1 b
        = cacheLookup st.1 b := by
  induction products with
  | nil => intro st; rfl
  | cons vs ps ih =>
    intro st
    rw [List.foldl_cons, ih (vs.foldl merge_variant st),
      foldl_merge_lookup_ws b hb vs st]

/-- The whole cache pagination loop never touches a whitespace-only
key. -/
theorem run_cache_scan_lookup_ws (b : String) (hb : pstrip b = "")
    (pages : List CachePage) :
    ∀ (c : List (String × Nat)) (ch : Bool),
      cacheLookup (run_cache_scan c ch pages).1 b = cacheLookup c b := by
  induction pages with
  | nil => intro c ch; rfl
  | cons p ps ih =>
    intro c ch
    cases p with
    | ok products hasNext =>
      cases hasNext
      · simp only [run_cache_scan]
        exact foldl_products_lookup_ws b hb products (c, ch)
      · simp only [run_cache_scan, if_true]
        rw [ih, foldl_products_lookup_ws b hb products (c, ch)]
    | err status =>
      by_cases hst : status = 429
      · simp only [run_cache_scan]
        rw [if_pos hst]
        exact ih c ch
      · simp only [run_cache_scan]
        rw [if_neg hst]

/-- Every item yielded by the compare scan has a barcode that is
non-empty after stripping. -/
theorem scan_item_barcode_not_ws (spages : List ScanPage) (it : ScanItem)
    (hit : it ∈ get_all_shopify_barcodes spages) : pstrip it.barcode ≠ "" := by
  induction spages with
  | nil => cases hit
  | cons p ps ih =>
    cases p with
    | ok products hasNext =>
      simp only [get_all_shopify_barcodes] at hit
      rcases List.mem_append.mp hit with hleft | hright
      · obtain ⟨l, hl, hitl⟩ := List.mem_flatten.mp hleft
        obtain ⟨vs, -, hvs⟩ := List.mem_map.mp hl
        rw [← hvs] at hitl
        obtain ⟨v, hv, hvit⟩ := List.mem_map.mp hitl
        have hsel := (List.mem_filter.mp hv).2
        simp only [scan_select, Bool.and_eq_true] at hsel
        obtain ⟨⟨hok, -⟩, -⟩ := hsel
        rw [← hvit]
        simpa [scan_item_of] using barcode_ok_strip v.barcode hok
      · cases hasNext
        · simp at hright
        · exact ih (by simpa using hright)
    | err status => cases hit

/-- C10: a barcode that is empty or whitespace-only is never entered into
the identifier cache by a cache refresh (the persisted cache maps it
exactly as before), and no scanned item — hence no zeroing candidate of
the compare run — carries it, regardless of quantity and availability. -/
theorem whitespace_barcode_excluded (b : String) (hb : pstrip b = "")
    (init : List (String × Nat)) (cpages : List CachePage)
    (spages : List ScanPage) (fileB wl : List String) (it : ScanItem) :
    cacheLookup (update_inventory_cache init cpages) b = cacheLookup init b ∧
    (it ∈ get_all_shopify_barcodes spages → it.barcode ≠ b) ∧
    (it ∈ (classify_missing (get_all_shopify_barcodes spages) fileB wl).missing →
      it.barcode ≠ b) := by
  refine ⟨?_, ?_, ?_⟩
  · unfold update_inventory_cache
    by_cases h : (run_cache_scan init false cpages).2 = true
    · rw [if_pos h]
      exact run_cache_scan_lookup_ws b hb cpages init false
    · rw [if_neg h]
  · intro hit heq
    exact scan_item_barcode_not_ws spages it hit (heq ▸ hb)
  · intro hit heq
    obtain ⟨hscan, -, -⟩ := (mem_missing_iff _ _ _ _).mp hit
    exact scan_item_barcode_not_ws spages it hscan (heq ▸ hb)

/-- Witness for C10 at a concrete run: a whitespace-only barcode is
absent from the refreshed cache and from the scan, even though its
variant has positive quantity and is available. -/
theorem whitespace_barcode_excluded_witness :
    pstrip " " = "" ∧
    cacheLookup
      (update_inventory_cache []
        [CachePage.ok [[⟨"s", some " ", 5, true, 3⟩]] false]) " "
      = cacheLookup [] " " ∧
    ((⟨"x", " ", 1⟩ : ScanItem) ∈
        get_all_shopify_barcodes
          [ScanPage.ok [[⟨"s", some " ", 5, true, 3⟩]] false] →
      (⟨"x", " ", 1⟩ : ScanItem).barcode ≠ " ") := by
  obtain ⟨h1, h2, -⟩ := whitespace_barcode_excluded " " (by decide) []
    [CachePage.ok [[⟨"s", some " ", 5, true, 3⟩]] false]
    [ScanPage.ok [[⟨"s", some " ", 5, true, 3⟩]] false] [] [] ⟨"x", " ", 1⟩
  exact ⟨by decide, h1, h2⟩

end CupidShopify
